import Mathlib

/-!
Shallow embedding of `diagnostics/stratonovich_diagonal.py` from the
torchsde repository.

The script has two procedures, `inspect_sample` and `inspect_strong_order`,
plus a `__main__` block that picks the compute device, sets the default
dtype to float64, seeds the generator and runs both procedures.

The embedding has two layers:
* an event-trace layer recording every tensor creation, model move,
  parameter assignment, Brownian-interval construction, solver call,
  directory creation, plot line and figure save the script performs, and
* a value layer for the strong-order loop, parameterised by an oracle
  giving the endpoint values the external integrator returns for a fixed
  Brownian realisation (the integrator itself lives outside this file).

Helper functions the script imports from `diagnostics/utils` and the model
class `Ex2` from `tests/problems` are not part of the analysed source and
are modelled from the specification; their doc comments say so.
-/

namespace StratDiag

/-- Compute device, mirroring `torch.device('cuda' | 'cpu')`. -/
inductive Device where
  | cuda
  | cpu
deriving DecidableEq

/-- Floating dtype, mirroring `torch.float32` / `torch.float64`. -/
inductive DType where
  | float32
  | float64
deriving DecidableEq

/-- The three numerical schemes the script passes to `sdeint`. -/
inductive Method where
  | euler
  | heun
  | midpoint
deriving DecidableEq

/-- Which of the two procedures an event belongs to. -/
inductive Proc where
  | sample
  | strongOrder
deriving DecidableEq

/-- The legend label of a plotted curve. -/
inductive Label where
  | euler
  | heun
  | midpoint
  | analytical
deriving DecidableEq

/-- The `sde_type` flag of the model: explicit (Ito) or corrected
(Stratonovich) calculus sense. -/
inductive SdeType where
  | ito
  | stratonovich
deriving DecidableEq

/-- Modelled from the spec: the `Ex2` problem class of `tests/problems`
(not under the analysed source): a drift-diffusion model parameterised by
a dimension count and an interpretation flag, holding one underlying
parameter `p`; the parameter is identified by the token `p` so that
sharing between instances is observable. -/
structure Ex2 where
  d : ℕ
  sde_type : SdeType
  p : ℕ
deriving DecidableEq

/-- Construction of an `Ex2` instance: a fresh parameter identity is drawn
for its parameter `p`. -/
def mkEx2 (d : ℕ) (sde_type : SdeType) (fresh : ℕ) : Ex2 :=
  { d := d, sde_type := sde_type, p := fresh }

/-- One observable action of the script. -/
inductive Event where
  | setDevice (dev : Device)
  | setDefaultDtype (dty : DType)
  | manualSeed (seed : ℕ)
  | tensorCreate (proc : Proc) (dev : Device) (dty : DType)
  | modelTo (proc : Proc) (pid : ℕ) (dev : Device)
  | paramShare (proc : Proc) (dst src : ℕ)
  | mkBM (proc : Proc) (bmId : ℕ) (dev : Device) (dty : DType)
  | solverCall (proc : Proc) (m : Method) (bmId pid : ℕ) (dt : ℚ)
      (tsLen : ℕ) (dev : Device)
  | analyticalCall (proc : Proc) (bmId pid : ℕ) (tsLen : ℕ) (dev : Device)
  | mkdir (path : String)
  | plotLine (proc : Proc) (lab : Label)
  | savefig (path : String)
deriving DecidableEq

/-- The device an event mentions, when it mentions one. -/
def Event.deviceOf : Event → Option Device
  | .setDevice dev => some dev
  | .tensorCreate _ dev _ => some dev
  | .modelTo _ _ dev => some dev
  | .mkBM _ _ dev _ => some dev
  | .solverCall _ _ _ _ _ _ dev => some dev
  | .analyticalCall _ _ _ _ dev => some dev
  | _ => none

/-- The dtype an event mentions, when it mentions one. -/
def Event.dtypeOf : Event → Option DType
  | .tensorCreate _ _ dty => some dty
  | .mkBM _ _ _ dty => some dty
  | _ => none

/-- The Brownian-interval identity a solver or analytical call uses. -/
def Event.bmOf : Event → Option ℕ
  | .solverCall _ _ bmId _ _ _ _ => some bmId
  | .analyticalCall _ bmId _ _ _ => some bmId
  | _ => none

/-- The model-parameter identity a solver or analytical call uses. -/
def Event.paramOf : Event → Option ℕ
  | .solverCall _ _ _ pid _ _ _ => some pid
  | .analyticalCall _ _ pid _ _ => some pid
  | _ => none

/-- Whether the event constructs a Brownian interval. -/
def Event.isMkBM : Event → Bool
  | .mkBM _ _ _ _ => true
  | _ => false

/-- Whether the event belongs to the given procedure. -/
def Event.procOf : Event → Option Proc
  | .tensorCreate proc _ _ => some proc
  | .modelTo proc _ _ => some proc
  | .paramShare proc _ _ => some proc
  | .mkBM proc _ _ _ => some proc
  | .solverCall proc _ _ _ _ _ _ => some proc
  | .analyticalCall proc _ _ _ _ => some proc
  | .plotLine proc _ => some proc
  | _ => none

/-- The output directory `os.path.join('.', 'diagnostics', 'plots',
'stratonovich_diagonal')`. -/
def imgDir : String := "./diagnostics/plots/stratonovich_diagonal"

/-- `batch_size` in `inspect_sample` (line 31). -/
def sample_batch_size : ℕ := 32

/-- `d` in `inspect_sample` (line 31). -/
def sample_d : ℕ := 1

/-- `steps` in `inspect_sample` (line 32). -/
def sample_steps : ℕ := 100

/-- `dt` in `inspect_sample` (line 35). -/
def sample_dt : ℚ := 1 / 10

/-- The two model instances of `inspect_sample` after the assignment
`sde_strat.p = sde.p` (lines 37-39). -/
def sampleModels : Ex2 × Ex2 :=
  let sde := mkEx2 sample_d SdeType.ito 0
  let sde_strat0 := mkEx2 sample_d SdeType.stratonovich 1
  ⟨sde, { sde_strat0 with p := sde.p }⟩

/-- Shape of a tensor as the list of its dimension sizes. -/
def Shape := List ℕ

/-- `Tensor.squeeze`: drop every dimension of size one. -/
def squeezeShape (s : List ℕ) : List ℕ := s.filter (fun n => n ≠ 1)

/-- `Tensor.t`: transpose of a two-dimensional tensor. -/
def tShape (s : List ℕ) : List ℕ := s.reverse

/-- Leading dimension, the length Python iterates over. -/
def firstDim (s : List ℕ) : ℕ := s.headD 0

/-- Number of figures the sample loop produces: `zip` over the four
transposed squeezed solution arrays, each of original shape
(steps, batch, d). -/
def nFigures : ℕ :=
  let one := firstDim (tShape (squeezeShape [sample_steps, sample_batch_size, sample_d]))
  min (min one one) (min one one)

/-- Event trace of `inspect_sample` (lines 30-71), given the ambient
device and default dtype. -/
def inspect_sample (dev : Device) (dty : DType) : List Event :=
  let sde := mkEx2 sample_d SdeType.ito 0
  let sde_strat0 := mkEx2 sample_d SdeType.stratonovich 1
  let sde_strat := { sde_strat0 with p := sde.p }
  [ Event.tensorCreate .sample dev dty,
    Event.tensorCreate .sample dev dty,
    Event.modelTo .sample sde.p dev,
    Event.modelTo .sample sde_strat0.p dev,
    Event.paramShare .sample sde_strat0.p sde.p,
    Event.mkBM .sample 0 dev dty,
    Event.solverCall .sample .euler 0 sde.p sample_dt sample_steps dev,
    Event.solverCall .sample .heun 0 sde_strat.p sample_dt sample_steps dev,
    Event.solverCall .sample .midpoint 0 sde_strat.p sample_dt sample_steps dev,
    Event.analyticalCall .sample 0 sde.p sample_steps dev,
    Event.mkdir imgDir ]
  ++ (List.range nFigures).flatMap (fun i =>
      [ Event.plotLine .sample .euler,
        Event.plotLine .sample .heun,
        Event.plotLine .sample .midpoint,
        Event.plotLine .sample .analytical,
        Event.savefig (imgDir ++ "/" ++ toString i) ])

/-- `batch_size` in `inspect_strong_order` (line 75). -/
def so_batch_size : ℕ := 4096

/-- `d` in `inspect_strong_order` (line 75). -/
def so_d : ℕ := 10

/-- The step sizes `tuple(2 ** -i for i in range(1, 9))` (line 77). -/
def dts : List ℚ := (List.range' 1 8).map (fun i => (1 / 2 : ℚ) ^ i)

/-- The two model instances of `inspect_strong_order` after the assignment
`sde_strat.p = sde.p` (lines 79-81). -/
def soModels : Ex2 × Ex2 :=
  let sde := mkEx2 so_d SdeType.ito 0
  let sde_strat0 := mkEx2 so_d SdeType.stratonovich 1
  ⟨sde, { sde_strat0 with p := sde.p }⟩

/-- Event trace of `inspect_strong_order` (lines 74-126), given the
ambient device and default dtype. -/
def inspect_strong_order_trace (dev : Device) (dty : DType) : List Event :=
  let sde := mkEx2 so_d SdeType.ito 0
  let sde_strat0 := mkEx2 so_d SdeType.stratonovich 1
  let sde_strat := { sde_strat0 with p := sde.p }
  [ Event.tensorCreate .strongOrder dev dty,
    Event.tensorCreate .strongOrder dev dty,
    Event.modelTo .strongOrder sde.p dev,
    Event.modelTo .strongOrder sde_strat0.p dev,
    Event.paramShare .strongOrder sde_strat0.p sde.p,
    Event.mkBM .strongOrder 0 dev dty ]
  ++ dts.flatMap (fun dt =>
      [ Event.solverCall .strongOrder .euler 0 sde.p dt 2 dev,
        Event.solverCall .strongOrder .heun 0 sde_strat.p dt 2 dev,
        Event.solverCall .strongOrder .midpoint 0 sde_strat.p dt 2 dev,
        Event.analyticalCall .strongOrder 0 sde.p 2 dev ])
  ++ [ Event.plotLine .strongOrder .euler,
       Event.plotLine .strongOrder .heun,
       Event.plotLine .strongOrder .midpoint,
       Event.mkdir imgDir,
       Event.savefig (imgDir ++ "/rate") ]

/-- Device selection of the `__main__` block (line 133):
`'cuda' if torch.cuda.is_available() and not args.no_gpu else 'cpu'`. -/
def chooseDevice (cudaAvailable noGpu : Bool) : Device :=
  if cudaAvailable && !noGpu then Device.cuda else Device.cpu

/-- Event trace of one full script run (lines 129-139): device choice,
default dtype, seed, then both procedures. -/
def mainTrace (cudaAvailable noGpu : Bool) : List Event :=
  let dev := chooseDevice cudaAvailable noGpu
  [ Event.setDevice dev,
    Event.setDefaultDtype DType.float64,
    Event.manualSeed 0 ]
  ++ inspect_sample dev DType.float64
  ++ inspect_strong_order_trace dev DType.float64

/-- A tensor: a device, a dtype and flattened numeric contents. -/
structure Tensor where
  device : Device
  dtype : DType
  data : List ℚ
deriving DecidableEq

/-- A zero-dimensional (scalar) tensor, as returned by a mean reduction. -/
structure Scalar0 where
  device : Device
  dtype : DType
  val : ℚ
deriving DecidableEq

/-- Modelled from the spec: `compute_mse` from `diagnostics/utils` (not
under the analysed source): the mean squared error of two tensors,
computed on the device and precision of its inputs and returned as a
scalar tensor. -/
def compute_mse (x y : Tensor) : Scalar0 :=
  let sq := List.zipWith (fun a b => (a - b) * (a - b)) x.data y.data
  { device := x.device, dtype := x.dtype, val := sq.sum / (sq.length : ℚ) }

/-- Modelled from the spec: `to_numpy` from `diagnostics/utils` (not under
the analysed source), specialised to scalar tensors: the explicit
conversion of a tensor into the regression library's plain numeric value,
dropping device and dtype tags. -/
def to_numpy (s : Scalar0) : ℚ := s.val

/-- Modelled behaviour of `scipy.stats.linregress`: the ordinary
least-squares slope of y against x. -/
def linregress_slope (x y : List ℚ) : ℚ :=
  let n : ℚ := (x.length : ℚ)
  let sx := x.sum
  let sy := y.sum
  let sxy := (List.zipWith (fun a b => a * b) x y).sum
  let sxx := (List.zipWith (fun a b => a * b) x x).sum
  (n * sxy - sx * sy) / (n * sxx - sx * sx)

/-- Endpoint values the external integrator and the analytical solution
return for the one fixed Brownian realisation of the loop.  `sdeintEnd`
takes the scheme and the step size; `analyticalEnd` is step-size free
because `analytical_sample` receives the same arguments at every
iteration. -/
structure Oracle where
  sdeintEnd : Method → ℚ → List ℚ
  analyticalEnd : List ℚ

/-- Computed output of the strong-order estimator: the three MSE
sequences appended over the loop, and the three regression slopes. -/
structure SOResult where
  euler_mses_ : List ℚ
  heun_mses_ : List ℚ
  midpoint_mses_ : List ℚ
  euler_slope : ℚ
  heun_slope : ℚ
  midpoint_slope : ℚ
deriving DecidableEq

/-- Value layer of `inspect_strong_order` (lines 83-113): the loop over
`dts` appending one converted MSE per method per step size, then the three
least-squares fits on (log step-size, log MSE / 2).  The elementwise
`np.log` is abstracted as the parameter `log`. -/
def inspect_strong_order_values (dev : Device) (dty : DType)
    (log : ℚ → ℚ) (o : Oracle) : SOResult :=
  let step := fun (acc : List ℚ × List ℚ × List ℚ) (dt : ℚ) =>
    let ys_euler : Tensor := ⟨dev, dty, o.sdeintEnd .euler dt⟩
    let ys_heun : Tensor := ⟨dev, dty, o.sdeintEnd .heun dt⟩
    let ys_midpoint : Tensor := ⟨dev, dty, o.sdeintEnd .midpoint dt⟩
    let ys_analytical : Tensor := ⟨dev, dty, o.analyticalEnd⟩
    let euler_mse := compute_mse ys_euler ys_analytical
    let heun_mse := compute_mse ys_heun ys_analytical
    let midpoint_mse := compute_mse ys_midpoint ys_analytical
    (acc.1 ++ [to_numpy euler_mse],
     acc.2.1 ++ [to_numpy heun_mse],
     acc.2.2 ++ [to_numpy midpoint_mse])
  let mses := dts.foldl step ([], [], [])
  { euler_mses_ := mses.1
    heun_mses_ := mses.2.1
    midpoint_mses_ := mses.2.2
    euler_slope :=
      linregress_slope (dts.map log) ((mses.1.map log).map (fun v => v / 2))
    heun_slope :=
      linregress_slope (dts.map log) ((mses.2.1.map log).map (fun v => v / 2))
    midpoint_slope :=
      linregress_slope (dts.map log) ((mses.2.2.map log).map (fun v => v / 2)) }

/-- Modelled from the spec: `makedirs_if_not_found` from
`diagnostics/utils` (not under the analysed source): create the directory
when absent and do nothing when it already exists.  The file system is a
list of existing directories; the function is total, so an existing
directory never makes it fail. -/
def makedirs_if_not_found (path : String) (fs : List String) : List String :=
  if fs.contains path then fs else path :: fs

/-- A Python runtime error observable by this script. -/
inductive PyError where
  | nameError (name : String)
deriving DecidableEq

/-- The module globals the two procedures read: `device` is bound only by
the `__main__` block, the default dtype starts at float32, the generator
starts unseeded. -/
structure Env where
  device : Option Device
  default_dtype : DType
  seeded : Bool
deriving DecidableEq

/-- Module globals after `import` without running the `__main__` block:
`device` is unbound. -/
def importEnv : Env :=
  { device := none, default_dtype := DType.float32, seeded := false }

/-- Module globals the `__main__` block establishes before calling either
procedure (lines 133-136). -/
def scriptEnv (cudaAvailable noGpu : Bool) : Env :=
  { device := some (chooseDevice cudaAvailable noGpu)
    default_dtype := DType.float64
    seeded := true }

/-- Running `inspect_sample` under given module globals: its first
statement reading `device` (the `torch.linspace` call, line 34) raises
`NameError` when `device` is unbound. -/
def inspect_sample_run (env : Env) : Except PyError (List Event) :=
  match env.device with
  | none => Except.error (PyError.nameError ("device"))
  | some dev => Except.ok (inspect_sample dev env.default_dtype)

/-- Running `inspect_strong_order` under given module globals: its first
statement reading `device` (the `torch.tensor` call, line 76) raises
`NameError` when `device` is unbound. -/
def inspect_strong_order_run (env : Env) : Except PyError (List Event) :=
  match env.device with
  | none => Except.error (PyError.nameError ("device"))
  | some dev => Except.ok (inspect_strong_order_trace dev env.default_dtype)

/-- The figure paths saved along a trace. -/
def savefigPaths (tr : List Event) : List String :=
  tr.filterMap (fun e =>
    match e with
    | .savefig p => some p
    | _ => none)

/-- A concrete endpoint realisation: every scheme returns the one-element
tensor [1] and the analytical endpoint is [0], so every MSE equals 1. -/
def unitOracle : Oracle :=
  { sdeintEnd := fun _ _ => [1], analyticalEnd := [0] }

set_option maxRecDepth 8000

/-- A strictly decreasing run of rationals, head to tail. -/
def strictlyDecreasing : List ℚ → Bool
  | [] => true
  | [_] => true
  | a :: b :: rest => decide (b < a) && strictlyDecreasing (b :: rest)

/-- Sums of squared componentwise differences are non-negative. -/
theorem sum_sq_zipWith_nonneg :
    ∀ (xs ys : List ℚ),
      0 ≤ (List.zipWith (fun a b => (a - b) * (a - b)) xs ys).sum := by
  intro xs
  induction xs with
  | nil => intro ys; simp
  | cons x xs ih =>
    intro ys
    cases ys with
    | nil => simp
    | cons y ys =>
      simp only [List.zipWith_cons_cons, List.sum_cons]
      exact add_nonneg (mul_self_nonneg _) (ih ys)

/-- The modelled mean squared error is never negative. -/
theorem compute_mse_nonneg (x y : Tensor) : 0 ≤ to_numpy (compute_mse x y) := by
  unfold to_numpy compute_mse
  exact div_nonneg (sum_sq_zipWith_nonneg _ _) (by positivity)

/-- Every element of a list of mean squared errors indexed by the step
sizes is non-negative. -/
theorem mem_map_mse_nonneg (f : ℚ → Tensor) (g : Tensor) (m : ℚ)
    (hm : m ∈ dts.map (fun dt => to_numpy (compute_mse (f dt) g))) :
    0 ≤ m := by
  rcases List.mem_map.mp hm with ⟨dt, _, rfl⟩
  exact compute_mse_nonneg _ _

/-- C1: for every step size in `dts` the strong-order estimator runs the
three schemes euler, heun and midpoint over the two-point time span,
sharing the single Brownian interval 0, keeps only the final-time value,
records one scalar MSE per step size per method against the analytical
endpoint, and afterwards each reported slope is the least-squares slope of
(log step-size, log MSE / 2). -/
theorem strong_order_estimator_structure (dev : Device) (dty : DType)
    (log : ℚ → ℚ) (o : Oracle) :
    dts = [1/2, 1/4, 1/8, 1/16, 1/32, 1/64, 1/128, 1/256] ∧
    (inspect_strong_order_trace dev dty).filter (fun e => (e.bmOf).isSome) =
      dts.flatMap (fun dt =>
        [ Event.solverCall .strongOrder .euler 0 0 dt 2 dev,
          Event.solverCall .strongOrder .heun 0 0 dt 2 dev,
          Event.solverCall .strongOrder .midpoint 0 0 dt 2 dev,
          Event.analyticalCall .strongOrder 0 0 2 dev ]) ∧
    (inspect_strong_order_values dev dty log o).euler_mses_ =
      dts.map (fun dt => to_numpy (compute_mse ⟨dev, dty, o.sdeintEnd .euler dt⟩
        ⟨dev, dty, o.analyticalEnd⟩)) ∧
    (inspect_strong_order_values dev dty log o).heun_mses_ =
      dts.map (fun dt => to_numpy (compute_mse ⟨dev, dty, o.sdeintEnd .heun dt⟩
        ⟨dev, dty, o.analyticalEnd⟩)) ∧
    (inspect_strong_order_values dev dty log o).midpoint_mses_ =
      dts.map (fun dt => to_numpy (compute_mse ⟨dev, dty, o.sdeintEnd .midpoint dt⟩
        ⟨dev, dty, o.analyticalEnd⟩)) ∧
    (inspect_strong_order_values dev dty log o).euler_slope =
      linregress_slope (dts.map log)
        (((inspect_strong_order_values dev dty log o).euler_mses_.map log).map
          (fun v => v / 2)) ∧
    (inspect_strong_order_values dev dty log o).heun_slope =
      linregress_slope (dts.map log)
        (((inspect_strong_order_values dev dty log o).heun_mses_.map log).map
          (fun v => v / 2)) ∧
    (inspect_strong_order_values dev dty log o).midpoint_slope =
      linregress_slope (dts.map log)
        (((inspect_strong_order_values dev dty log o).midpoint_mses_.map log).map
          (fun v => v / 2)) :=
  ⟨by norm_num [dts, List.range'], rfl, rfl, rfl, rfl, rfl, rfl, rfl⟩

/-- C2: the device is chosen exactly once at startup, is cuda iff cuda is
available and `--no-gpu` was not passed, float64 is set as the default
dtype at startup, and every device- or dtype-tagged action of the whole
run uses that one device and float64. -/
theorem device_and_precision_global (cudaAvailable noGpu : Bool) :
    (chooseDevice cudaAvailable noGpu = Device.cuda ↔
      (cudaAvailable = true ∧ noGpu = false)) ∧
    (mainTrace cudaAvailable noGpu).take 3 =
      [ Event.setDevice (chooseDevice cudaAvailable noGpu),
        Event.setDefaultDtype DType.float64,
        Event.manualSeed 0 ] ∧
    ((mainTrace cudaAvailable noGpu).all (fun e =>
      (e.deviceOf).all (fun d => d = chooseDevice cudaAvailable noGpu))) = true ∧
    ((mainTrace cudaAvailable noGpu).all (fun e =>
      (e.dtypeOf).all (fun t => t = DType.float64))) = true := by
  cases cudaAvailable <;> cases noGpu <;> decide

/-- C3: each procedure constructs exactly one Brownian interval, and all
its solver and analytical calls — four in the sample procedure, thirty-two
in the strong-order procedure (four per step size across the eight step
sizes) — use that single interval. -/
theorem single_brownian_path_shared (dev : Device) (dty : DType) :
    (inspect_sample dev dty).countP (fun e => e.isMkBM) = 1 ∧
    (inspect_strong_order_trace dev dty).countP (fun e => e.isMkBM) = 1 ∧
    ((inspect_sample dev dty).all (fun e =>
      (e.bmOf).all (fun b => b = 0))) = true ∧
    ((inspect_strong_order_trace dev dty).all (fun e =>
      (e.bmOf).all (fun b => b = 0))) = true ∧
    (inspect_sample dev dty).countP (fun e => (e.bmOf).isSome) = 4 ∧
    (inspect_strong_order_trace dev dty).countP (fun e => (e.bmOf).isSome) = 32 := by
  cases dev <;> cases dty <;> decide

/-- C4: in both procedures the corrected-calculus instance's parameter is
assigned to be the explicit instance's parameter, and every subsequent
solver and analytical call carries that one shared parameter identity. -/
theorem models_share_parameter (dev : Device) (dty : DType) :
    sampleModels.2.p = sampleModels.1.p ∧
    soModels.2.p = soModels.1.p ∧
    Event.paramShare Proc.sample 1 0 ∈ inspect_sample dev dty ∧
    Event.paramShare Proc.strongOrder 1 0 ∈ inspect_strong_order_trace dev dty ∧
    ((inspect_sample dev dty).all (fun e =>
      (e.paramOf).all (fun q => q = sampleModels.1.p))) = true ∧
    ((inspect_strong_order_trace dev dty).all (fun e =>
      (e.paramOf).all (fun q => q = soModels.1.p))) = true := by
  cases dev <;> cases dty <;> decide

/-- C5: one complete run saves exactly `sample_batch_size` figures from
the sample routine, at paths indexed 0 through `sample_batch_size - 1`,
each built from four plotted curves labelled euler, heun, midpoint and
analytical, plus exactly one rate figure from the strong-order routine,
all under the fixed output directory. -/
theorem plot_file_counts (dev : Device) (dty : DType)
    (cudaAvailable noGpu : Bool) :
    savefigPaths (inspect_sample dev dty) =
      (List.range sample_batch_size).map (fun i => imgDir ++ "/" ++ toString i) ∧
    (savefigPaths (inspect_sample dev dty)).length = sample_batch_size ∧
    savefigPaths (inspect_strong_order_trace dev dty) = [imgDir ++ "/rate"] ∧
    savefigPaths (mainTrace cudaAvailable noGpu) =
      (List.range sample_batch_size).map (fun i => imgDir ++ "/" ++ toString i)
        ++ [imgDir ++ "/rate"] ∧
    (savefigPaths (mainTrace cudaAvailable noGpu)).length = sample_batch_size + 1 ∧
    (inspect_sample dev dty).countP
      (fun e => e = Event.plotLine Proc.sample Label.euler) = sample_batch_size ∧
    (inspect_sample dev dty).countP
      (fun e => e = Event.plotLine Proc.sample Label.heun) = sample_batch_size ∧
    (inspect_sample dev dty).countP
      (fun e => e = Event.plotLine Proc.sample Label.midpoint) = sample_batch_size ∧
    (inspect_sample dev dty).countP
      (fun e => e = Event.plotLine Proc.sample Label.analytical) = sample_batch_size := by
  cases dev <;> cases dty <;> cases cudaAvailable <;> cases noGpu <;> decide

/-- C6: directory creation is idempotent: the directory exists afterwards,
a second call on the resulting file system changes nothing and cannot
fail (the function is total), and both procedures invoke it on the same
fixed output directory. -/
theorem makedirs_idempotent (path : String) (fs : List String)
    (dev : Device) (dty : DType) :
    (makedirs_if_not_found path fs).contains path = true ∧
    makedirs_if_not_found path (makedirs_if_not_found path fs) =
      makedirs_if_not_found path fs ∧
    Event.mkdir imgDir ∈ inspect_sample dev dty ∧
    Event.mkdir imgDir ∈ inspect_strong_order_trace dev dty := by
  refine ⟨?_, ?_, ?_, ?_⟩
  · by_cases h : fs.contains path = true
    · unfold makedirs_if_not_found
      rw [if_pos h]
      exact h
    · unfold makedirs_if_not_found
      rw [if_neg h]
      simp
  · by_cases h : fs.contains path = true
    · unfold makedirs_if_not_found
      rw [if_pos h, if_pos h]
    · have h2 : (path :: fs).contains path = true := by simp
      unfold makedirs_if_not_found
      rw [if_neg h, if_pos h2]
  · cases dev <;> cases dty <;> decide
  · cases dev <;> cases dty <;> decide

/-- C7: the strong-order estimator is deterministic: two runs with the
same device, dtype, logarithm and Brownian-determined endpoint realisation
produce identical MSE sequences for all three methods. -/
theorem strong_order_deterministic (dev : Device) (dty : DType)
    (log : ℚ → ℚ) (o₁ o₂ : Oracle) (h : o₁ = o₂) :
    (inspect_strong_order_values dev dty log o₁).euler_mses_ =
      (inspect_strong_order_values dev dty log o₂).euler_mses_ ∧
    (inspect_strong_order_values dev dty log o₁).heun_mses_ =
      (inspect_strong_order_values dev dty log o₂).heun_mses_ ∧
    (inspect_strong_order_values dev dty log o₁).midpoint_mses_ =
      (inspect_strong_order_values dev dty log o₂).midpoint_mses_ := by
  subst h
  exact ⟨rfl, rfl, rfl⟩

/-- C7 witness: the determinism theorem applied at a concrete device,
dtype, logarithm and realisation. -/
theorem strong_order_deterministic_witness :
    (inspect_strong_order_values Device.cpu DType.float64 id unitOracle).euler_mses_ =
      (inspect_strong_order_values Device.cpu DType.float64 id unitOracle).euler_mses_ ∧
    (inspect_strong_order_values Device.cpu DType.float64 id unitOracle).heun_mses_ =
      (inspect_strong_order_values Device.cpu DType.float64 id unitOracle).heun_mses_ ∧
    (inspect_strong_order_values Device.cpu DType.float64 id unitOracle).midpoint_mses_ =
      (inspect_strong_order_values Device.cpu DType.float64 id unitOracle).midpoint_mses_ :=
  strong_order_deterministic Device.cpu DType.float64 id unitOracle unitOracle rfl

/-- C8 counterexample: under the concrete endpoint realisation
`unitOracle` every MSE of the euler sequence equals one, so the MSE
sequence does not strictly decrease as the step size decreases; the
strict-decrease half of the claim fails. -/
theorem strong_order_mse_not_strictly_decreasing :
    (inspect_strong_order_values Device.cpu DType.float64 id unitOracle).euler_mses_ =
      List.replicate 8 1 ∧
    strictlyDecreasing
      (inspect_strong_order_values Device.cpu DType.float64 id unitOracle).euler_mses_
      = false := by
  have h : (inspect_strong_order_values Device.cpu DType.float64 id
      unitOracle).euler_mses_ = List.replicate 8 1 := by
    norm_num [inspect_strong_order_values, dts, List.range', compute_mse,
      to_numpy, unitOracle, List.replicate]
  refine ⟨h, ?_⟩
  rw [h]
  norm_num [strictlyDecreasing, List.replicate]

/-- C8 (amended): every MSE the strong-order estimator computes, for any
method and any endpoint realisation, is non-negative; the strict decrease
holds only on average, not for every realisation. -/
theorem strong_order_mse_nonneg (dev : Device) (dty : DType)
    (log : ℚ → ℚ) (o : Oracle) (m : ℚ)
    (hm : m ∈ (inspect_strong_order_values dev dty log o).euler_mses_ ∨
          m ∈ (inspect_strong_order_values dev dty log o).heun_mses_ ∨
          m ∈ (inspect_strong_order_values dev dty log o).midpoint_mses_) :
    0 ≤ m := by
  rcases hm with h | h | h
  · exact mem_map_mse_nonneg
      (fun dt => ⟨dev, dty, o.sdeintEnd .euler dt⟩) ⟨dev, dty, o.analyticalEnd⟩ m h
  · exact mem_map_mse_nonneg
      (fun dt => ⟨dev, dty, o.sdeintEnd .heun dt⟩) ⟨dev, dty, o.analyticalEnd⟩ m h
  · exact mem_map_mse_nonneg
      (fun dt => ⟨dev, dty, o.sdeintEnd .midpoint dt⟩) ⟨dev, dty, o.analyticalEnd⟩ m h

/-- C8 witness: non-negativity applied at a concrete realisation whose
MSE values all equal one. -/
theorem strong_order_mse_nonneg_witness : (0 : ℚ) ≤ 1 :=
  strong_order_mse_nonneg Device.cpu DType.float64 id unitOracle 1
    (Or.inl (by norm_num [inspect_strong_order_values, dts, List.range',
      compute_mse, to_numpy, unitOracle]))

/-- C9: every MSE is computed as a scalar tensor on the device and dtype
of the run, is explicitly converted by `to_numpy` before regression, and
the regression inputs for each method are plain lists of the same length
as the step-size list. -/
theorem mse_converted_before_regression (dev : Device) (dty : DType)
    (log : ℚ → ℚ) (o : Oracle) :
    ((inspect_strong_order_values dev dty log o).euler_mses_).length = dts.length ∧
    ((inspect_strong_order_values dev dty log o).heun_mses_).length = dts.length ∧
    ((inspect_strong_order_values dev dty log o).midpoint_mses_).length = dts.length ∧
    dts.length = 8 ∧
    (∀ m : Method, ∀ dt : ℚ,
      (compute_mse ⟨dev, dty, o.sdeintEnd m dt⟩ ⟨dev, dty, o.analyticalEnd⟩).device
        = dev ∧
      (compute_mse ⟨dev, dty, o.sdeintEnd m dt⟩ ⟨dev, dty, o.analyticalEnd⟩).dtype
        = dty) ∧
    (inspect_strong_order_values dev dty log o).euler_mses_ =
      dts.map (fun dt => to_numpy (compute_mse ⟨dev, dty, o.sdeintEnd .euler dt⟩
        ⟨dev, dty, o.analyticalEnd⟩)) ∧
    (inspect_strong_order_values dev dty log o).euler_slope =
      linregress_slope (dts.map log)
        (((inspect_strong_order_values dev dty log o).euler_mses_.map log).map
          (fun v => v / 2)) :=
  ⟨rfl, rfl, rfl, rfl, fun _ _ => ⟨rfl, rfl⟩, rfl, rfl⟩

/-- C10: after a plain import neither procedure can run — each fails with
a NameError on `device` — while under script execution the device, the
float64 default dtype and the seed are all established before either
procedure runs, and both procedures then succeed. -/
theorem device_unbound_without_main (cudaAvailable noGpu : Bool) :
    inspect_sample_run importEnv = Except.error (PyError.nameError ("device")) ∧
    inspect_strong_order_run importEnv =
      Except.error (PyError.nameError ("device")) ∧
    (scriptEnv cudaAvailable noGpu).device =
      some (chooseDevice cudaAvailable noGpu) ∧
    (scriptEnv cudaAvailable noGpu).default_dtype = DType.float64 ∧
    (scriptEnv cudaAvailable noGpu).seeded = true ∧
    inspect_sample_run (scriptEnv cudaAvailable noGpu) =
      Except.ok (inspect_sample (chooseDevice cudaAvailable noGpu) DType.float64) ∧
    inspect_strong_order_run (scriptEnv cudaAvailable noGpu) =
      Except.ok (inspect_strong_order_trace (chooseDevice cudaAvailable noGpu)
        DType.float64) ∧
    (mainTrace cudaAvailable noGpu).take 3 =
      [ Event.setDevice (chooseDevice cudaAvailable noGpu),
        Event.setDefaultDtype DType.float64,
        Event.manualSeed 0 ] :=
  ⟨rfl, rfl, rfl, rfl, rfl, rfl, rfl, rfl⟩

end StratDiag
